import Mathlib

/-!
Verification development for the AI-powered search pipeline
(backend/api/ai-service.js, backend/api/ai-cache.js, backend/api/elasticsearch-init.js).

The JavaScript source is shallowly embedded: each pure computation becomes a
Lean function; the module-global TTL caches become explicit association lists
threaded through the functions; calls to the external Groq LLM service become
an explicit oracle argument describing the outcome of the (single) external
call an invocation may make.  Each embedded function also reports how many
external-service calls it performed, so cache-idempotence claims can be
stated.  MD5 cache keys are modelled by the hashed string itself (the hash is
a stable injective key derivation; only key equality is observable).
-/

/-- One mapped Elasticsearch hit, as produced by the /search route's hit
mapping (elasticsearch-init.js).  `last_modified` and the float `_score` are
carried as opaque strings / omitted: they are never inspected by the
functions verified here. -/
structure SearchResult where
  id : String
  url : String
  title : String
  description : String
  content : String
  page_description : String
  category : String
  last_modified : String
  deriving DecidableEq

/-- The normalized query-understanding record built by `understandQuery`
(ai-service.js lines 184-192). -/
structure Understanding where
  intent : String
  category : Option String
  keywords : List String
  correctedQuery : Option String
  expandedTerms : List String
  synonyms : List String
  didYouMean : Option String
  deriving DecidableEq

/-- The JSON object parsed out of the understanding service's response
(`JSON.parse(response)`; a parse failure yields `{}`, i.e. all fields
absent). -/
structure ParsedUnderstanding where
  intent : Option String
  category : Option String
  keywords : Option (List String)
  correctedQuery : Option String
  expandedTerms : Option (List String)
  synonyms : Option (List String)
  didYouMean : Option String
  deriving DecidableEq

/-- JavaScript `v || d` for a string-or-null `v` and string default `d`
(empty string is falsy). -/
def jsOrStr (v : Option String) (d : String) : String :=
  match v with
  | some s => if s = "" then d else s
  | none => d

/-- JavaScript `v || null` for a string-or-null `v` (empty string is falsy,
so it collapses to null). -/
def jsOrNullStr (v : Option String) : Option String :=
  match v with
  | some s => if s = "" then none else some s
  | none => none

/-- JavaScript `a || b || null` for string-or-null `a`, `b` (used for the
response's `didYouMean` field). -/
def jsOrNull2 (a b : Option String) : Option String :=
  match jsOrNullStr a with
  | some s => some s
  | none => jsOrNullStr b

/-- `s.toLowerCase()`, computed on the character list (the core
`String.toLower` recurses on byte positions, which the kernel cannot
evaluate; this definition is extensionally the same function). -/
def jsToLower (s : String) : String :=
  String.mk (s.data.map Char.toLower)

/-- Strip leading and trailing whitespace from a character list. -/
def trimChars (l : List Char) : List Char :=
  ((l.dropWhile Char.isWhitespace).reverse.dropWhile Char.isWhitespace).reverse

/-- `s.trim()`, computed on the character list (same remark as
`jsToLower`). -/
def jsTrim (s : String) : String :=
  String.mk (trimChars s.data)

/-- Field-defaulting applied to the parsed service response
(ai-service.js lines 184-192): `parsed.intent || 'search'`,
`parsed.category || null`, `parsed.keywords || []`, ... -/
def normalizeUnderstanding (p : ParsedUnderstanding) : Understanding :=
  { intent := jsOrStr p.intent "search"
    category := jsOrNullStr p.category
    keywords := p.keywords.getD []
    correctedQuery := jsOrNullStr p.correctedQuery
    expandedTerms := p.expandedTerms.getD []
    synonyms := p.synonyms.getD []
    didYouMean := jsOrNullStr p.didYouMean }

/-! ## The AI response cache (ai-cache.js)

Each of the module-global `Map`s is modelled as an association list from key
strings to entries; `Map.set` overwrites, `Map.get` returns the unique entry
for a key.  Timestamps (`Date.now()`) are naturals. -/

/-- A cache entry `{ data, timestamp }` (ai-cache.js). -/
structure CacheEntry (α : Type) where
  data : α
  timestamp : Nat
  deriving DecidableEq

/-- One cache class: a map from key strings to entries, modelled as an
association list where the first binding for a key wins. -/
def AiCache (α : Type) : Type := List (String × CacheEntry α)

instance (α : Type) [DecidableEq α] : DecidableEq (AiCache α) := by
  unfold AiCache; infer_instance

/-- The empty cache. -/
def emptyCache (α : Type) : AiCache α := []

/-- `Map.get`: the first binding for the key, if any. -/
def cacheFind (c : AiCache α) (k : String) : Option (CacheEntry α) :=
  match c with
  | [] => none
  | (k2, e) :: rest => if k2 = k then some e else cacheFind rest k

/-- `Map.delete`: remove the binding for a key. -/
def cacheDelete (c : AiCache α) (k : String) : AiCache α :=
  match c with
  | [] => []
  | (k2, e) :: rest => if k2 = k then cacheDelete rest k else (k2, e) :: cacheDelete rest k

/-- `Map.set`: overwrite the binding for a key. -/
def cacheSet (c : AiCache α) (k : String) (e : CacheEntry α) : AiCache α :=
  (k, e) :: cacheDelete c k

/-- Cache TTLs in milliseconds (ai-cache.js `CACHE_TTL`). -/
def UNDERSTAND_QUERY_TTL : Nat := 30 * 60 * 1000
def SUGGESTIONS_TTL : Nat := 15 * 60 * 1000
def OVERVIEW_TTL : Nat := 60 * 60 * 1000
def RANKING_TTL : Nat := 30 * 60 * 1000

/-- `isCacheValid(entry, ttl)`: `(now - entry.timestamp) < ttl`
(ai-cache.js; truncated subtraction matches the JS comparison for the
reachable states where `now ≥ timestamp`). -/
def isCacheValid (e : CacheEntry α) (ttl now : Nat) : Bool :=
  now - e.timestamp < ttl

/-- `getQueryCacheKey(query)`: md5 of the lower-cased trimmed query,
modelled by the normalized string itself. -/
def getQueryCacheKey (query : String) : String :=
  jsTrim (jsToLower query)

/-- `getResultsCacheKey(query, results)`: md5 of the normalized query plus
the identifiers (`r.id || r.url`) of the first 3 results joined with `|`,
modelled by the combined string itself. -/
def resultIdent (r : SearchResult) : String :=
  if r.id = "" then r.url else r.id

def getResultsCacheKey (query : String) (results : List SearchResult) : String :=
  jsTrim (jsToLower query) ++ "|" ++ String.intercalate "|" ((results.take 3).map resultIdent)

/-- `getCachedUnderstanding(query)`: returns the cached record on a valid
hit; deletes and misses on an expired entry.  The (possibly updated) cache
is returned alongside. -/
def getCachedUnderstanding (query : String) (c : AiCache Understanding) (now : Nat) :
    Option Understanding × AiCache Understanding :=
  let k := getQueryCacheKey query
  match cacheFind c k with
  | some e =>
    if isCacheValid e UNDERSTAND_QUERY_TTL now then (some e.data, c)
    else (none, cacheDelete c k)
  | none => (none, c)

/-- `cacheUnderstanding(query, data)`. -/
def cacheUnderstanding (query : String) (d : Understanding) (now : Nat)
    (c : AiCache Understanding) : AiCache Understanding :=
  cacheSet c (getQueryCacheKey query) ⟨d, now⟩

/-- `getCachedRanking(query, results)`. -/
def getCachedRanking (query : String) (results : List SearchResult)
    (c : AiCache (List SearchResult)) (now : Nat) :
    Option (List SearchResult) × AiCache (List SearchResult) :=
  let k := getResultsCacheKey query results
  match cacheFind c k with
  | some e =>
    if isCacheValid e RANKING_TTL now then (some e.data, c)
    else (none, cacheDelete c k)
  | none => (none, c)

/-- `cacheRanking(query, results, data)`. -/
def cacheRanking (query : String) (results : List SearchResult)
    (d : List SearchResult) (now : Nat)
    (c : AiCache (List SearchResult)) : AiCache (List SearchResult) :=
  cacheSet c (getResultsCacheKey query results) ⟨d, now⟩

/-- `getCachedOverview(query, topResults)`.  The stored data is itself a
string-or-null; on a valid hit the function returns `entry.data` directly,
so a cached `null` is returned as `none` - indistinguishable from a miss,
exactly as in the source. -/
def getCachedOverview (query : String) (topResults : List SearchResult)
    (c : AiCache (Option String)) (now : Nat) :
    Option String × AiCache (Option String) :=
  let k := getResultsCacheKey query topResults
  match cacheFind c k with
  | some e =>
    if isCacheValid e OVERVIEW_TTL now then (e.data, c)
    else (none, cacheDelete c k)
  | none => (none, c)

/-- `cacheOverview(query, topResults, data)`. -/
def cacheOverview (query : String) (topResults : List SearchResult)
    (d : Option String) (now : Nat)
    (c : AiCache (Option String)) : AiCache (Option String) :=
  cacheSet c (getResultsCacheKey query topResults) ⟨d, now⟩

/-! ## Query understanding stage (ai-service.js `understandQuery`) -/

/-- `query.split(/\s+/).filter(w => w.length > 0)`. -/
def splitWsAux (cur : List Char) : List Char → List String
  | [] => if cur.isEmpty then [] else [String.mk cur.reverse]
  | ch :: rest =>
    if ch.isWhitespace then
      if cur.isEmpty then splitWsAux [] rest
      else String.mk cur.reverse :: splitWsAux [] rest
    else splitWsAux (ch :: cur) rest

def splitWs (query : String) : List String :=
  splitWsAux [] query.data

/-- The record returned for an empty/whitespace-only query
(ai-service.js lines 111-120; the absent `didYouMean` field reads as
undefined, i.e. null). -/
def emptyUnderstanding : Understanding :=
  { intent := "search", category := none, keywords := [], correctedQuery := none
    expandedTerms := [], synonyms := [], didYouMean := none }

/-- The deterministic fallback built in the catch block on external-service
failure (ai-service.js lines 198-209). -/
def fallbackUnderstanding (query : String) : Understanding :=
  { intent := "search", category := none, keywords := splitWs query
    correctedQuery := none, expandedTerms := [], synonyms := [], didYouMean := none }

/-- `understandQuery(query)`.  `svc` is the outcome of the (at most one)
external Groq call: `none` models a thrown error (timeout / non-2xx /
missing key), `some p` models a returned completion whose content parsed to
`p` (a malformed JSON body parses to the all-absent record).  Returns the
understanding, the updated cache, and the number of external calls made. -/
def understandQuery (query : String) (svc : Option ParsedUnderstanding)
    (c : AiCache Understanding) (now : Nat) :
    Understanding × AiCache Understanding × Nat :=
  if jsTrim query = "" then (emptyUnderstanding, c, 0)
  else
    match getCachedUnderstanding query c now with
    | (some cached, c2) => (cached, c2, 0)
    | (none, c2) =>
      match svc with
      | some parsed =>
        let result := normalizeUnderstanding parsed
        (result, cacheUnderstanding query result now c2, 1)
      | none => (fallbackUnderstanding query, c2, 1)

/-! ## Result ranker (ai-service.js `rankResults`) -/

/-- Outcome of the external ranking call: `err` models a thrown error;
`ok idxs` models a returned completion whose content parsed to an object
with `parsed.rankedIndices || [] = idxs` (a malformed body yields `[]`). -/
inductive RankSvc where
  | err
  | ok (rankedIndices : List Nat)
  deriving DecidableEq

/-- `rankResults(query, results, intent)`.  Returns the (re)ordered list,
the updated ranking cache, and the number of external calls made.  Note the
source accepts any returned index list whose *length* equals
`results.length` (`rankedIndices.map(idx => results[idx]).filter(Boolean)`:
an out-of-range index yields `undefined`, which `filter(Boolean)` drops;
duplicate indices duplicate items). -/
def rankResults (query : String) (results : List SearchResult) (intent : String)
    (svc : RankSvc) (c : AiCache (List SearchResult)) (now : Nat) :
    List SearchResult × AiCache (List SearchResult) × Nat :=
  if results.isEmpty then (results, c, 0)
  else
    match getCachedRanking query results c now with
    | (some cached, c2) => (cached, c2, 0)
    | (none, c2) =>
      if results.length ≤ 20 then
        match svc with
        | .err => (results, c2, 1)
        | .ok rankedIndices =>
          if rankedIndices.length = results.length then
            let ranked := rankedIndices.filterMap (fun idx => results.get? idx)
            (ranked, cacheRanking query results ranked now c2, 1)
          else
            (results, cacheRanking query results results now c2, 1)
      else
        (results, cacheRanking query results results now c2, 0)

/-! ## Overview synthesizer (ai-service.js `generateOverview`) -/

/-- Outcome of the external overview call: `err` models a thrown error;
`ok content` models a returned completion with
`completion.choices[0]?.message?.content = content`. -/
inductive OverviewSvc where
  | err
  | ok (content : Option String)
  deriving DecidableEq

/-- `content?.trim() || null`. -/
def jsTrimOrNull (content : Option String) : Option String :=
  match content with
  | some s => if jsTrim s = "" then none else some (jsTrim s)
  | none => none

/-- `generateOverview(query, topResults, intent)`.  Returns the overview (or
null), the updated overview cache, and the number of external calls made.
Note the cache check is `if (cached !== null) return cached;`, so a cached
`null` falls through to the compute path; and the catch block returns null
*without* writing to the cache. -/
def generateOverview (query : String) (topResults : List SearchResult) (intent : String)
    (svc : OverviewSvc) (c : AiCache (Option String)) (now : Nat) :
    Option String × AiCache (Option String) × Nat :=
  if query = "" ∨ topResults.isEmpty then (none, c, 0)
  else
    match getCachedOverview query topResults c now with
    | (some v, c2) => (some v, c2, 0)
    | (none, c2) =>
      match svc with
      | .err => (none, c2, 1)
      | .ok content =>
        let overview := jsTrimOrNull content
        (overview, cacheOverview query topResults overview now c2, 1)

/-! ## Index query builder (ai-service.js `buildElasticsearchQuery`) -/

/-- One Elasticsearch clause emitted by the builder.  Constructors mirror
the DSL objects in the source: `matchPhrase` = `match_phrase`,
`matchAnd` = `match` with `operator: 'and'`, `phrasePfx` =
`match_phrase_prefix` with `max_expansions`, `pfx` = `prefix`,
`wildcard` = case-insensitive `wildcard` on `url`, `termCat` =
`term: { category: ... }`, `matchAll` = `match_all`. -/
inductive Clause where
  | matchPhrase (field : String) (query : String) (boost : Nat)
  | matchAnd (field : String) (query : String) (boost : Nat)
  | phrasePfx (field : String) (query : String) (boost : Nat) (maxExpansions : Nat)
  | pfx (field : String) (value : String) (boost : Nat)
  | wildcard (field : String) (value : String) (boost : Nat)
  | termCat (value : String)
  | matchAll
  deriving DecidableEq

/-- Replace each maximal run of whitespace with a single `*`
(`term.replace(/\s+/g, '*')`). -/
def starifyAux : Bool → List Char → List Char
  | _, [] => []
  | prevWs, ch :: rest =>
    if ch.isWhitespace then
      if prevWs then starifyAux true rest
      else '*' :: starifyAux true rest
    else ch :: starifyAux false rest

def starify (s : String) : String :=
  String.mk (starifyAux false s.data)

/-- The clauses pushed for one search term by the `searchTerms.forEach`
body (ai-service.js lines 446-522), in source order: the exact-phrase tier,
the `match`/operator-and tier, the prefix tier (only for terms of length
at least 3), and the unconditional url wildcard clause. -/
def termClauses (term : String) : List Clause :=
  [Clause.matchPhrase "title" term 10,
   Clause.matchPhrase "content" term 8,
   Clause.matchPhrase "description" term 6,
   Clause.matchPhrase "page_description" term 7,
   Clause.matchAnd "title" term 5,
   Clause.matchAnd "content" term 3,
   Clause.matchAnd "description" term 2,
   Clause.matchAnd "page_description" term 4]
  ++ (if 3 ≤ term.length then
        [Clause.phrasePfx "title" term 4 50,
         Clause.pfx "title" (jsToLower term) 3]
      else [])
  ++ [Clause.wildcard "url" ("*" ++ starify term ++ "*") 7]

/-- `[...keywords, ...expandedTerms, ...synonyms].filter(Boolean)`, then
`allTerms.length > 0 ? allTerms : keywords`. -/
def searchTermsOf (u : Understanding) : List String :=
  let allTerms := (u.keywords ++ u.expandedTerms ++ u.synonyms).filter (fun t => t ≠ "")
  if allTerms.length > 0 then allTerms else u.keywords

/-- The accumulated should-clauses: one `termClauses` block per search term
passing the `term && term.trim().length > 0` guard. -/
def shouldClausesOf (u : Understanding) : List Clause :=
  (searchTermsOf u).foldr (fun t acc => (if jsTrim t ≠ "" then termClauses t else []) ++ acc) []

/-- The final `bool` query (`must`, `should`, `minimum_should_match`).
An absent `must` (undefined) is modelled as the empty list. -/
structure BoolQuery where
  must : List Clause
  should : List Clause
  minimumShouldMatch : Nat
  deriving DecidableEq

/-- `buildElasticsearchQuery(understanding, categoryFilter)`.  Note the
internal `const targetCategory = categoryFilter || category;`: a null (or
empty) filter falls back to the understanding's detected category. -/
def buildElasticsearchQuery (u : Understanding) (categoryFilter : Option String) : BoolQuery :=
  let targetCategory : Option String :=
    match categoryFilter with
    | some c => if c = "" then u.category else some c
    | none => u.category
  let mustClauses : List Clause :=
    match targetCategory with
    | some c => if jsTrim c ≠ "" then [Clause.termCat c] else []
    | none => []
  let shouldClauses := shouldClausesOf u
  { must := mustClauses
    should := if shouldClauses.length > 0 then shouldClauses else [Clause.matchAll]
    minimumShouldMatch := if shouldClauses.length > 0 then 1 else 0 }

/-! ## Index-engine matching semantics (for the category claim)

The index engine is an external collaborator (spec section 6); only the
boolean structure matters for the claims: a document matches a `bool` query
iff every `must` clause matches and at least `minimum_should_match` of the
`should` clauses match.  The internal text-scoring clauses are interpreted
by an arbitrary oracle `textSem`; `term`-on-category is exact field
equality and `match_all` matches everything. -/

def clauseMatches (textSem : Clause → SearchResult → Bool) (d : SearchResult) :
    Clause → Bool
  | Clause.termCat v => d.category == v
  | Clause.matchAll => true
  | cl => textSem cl d

def boolQueryMatches (textSem : Clause → SearchResult → Bool) (q : BoolQuery)
    (d : SearchResult) : Prop :=
  (∀ cl ∈ q.must, clauseMatches textSem d cl = true) ∧
  q.minimumShouldMatch ≤ q.should.countP (clauseMatches textSem d)

instance (textSem : Clause → SearchResult → Bool) (q : BoolQuery) (d : SearchResult) :
    Decidable (boolQueryMatches textSem q d) := by
  unfold boolQueryMatches; infer_instance

/-! ## Search orchestrator (elasticsearch-init.js `app.get('/search')`)

The route is embedded as a function of the already-parsed request
parameters, the mapped index-engine hits and total (the Elasticsearch call
itself is an external collaborator), the three external-service oracles,
and the three AI caches.  The Strapi search-log call and the
category-aggregation call touch no state observed by any claim and are
omitted; the response's `categoryCounts` field is likewise omitted. -/

/-- The assembled search response (elasticsearch-init.js lines 441-449 and
615-630).  The early "nothing to search" return omits `pageSize` and
`intent` from the JSON; the absent `intent` is modelled as `none`, and
`pageSize` as the request value (it is never inspected by a claim). -/
structure SearchResponse where
  results : List SearchResult
  total : Nat
  page : Nat
  pageSize : Nat
  totalPages : Nat
  overview : Option String
  didYouMean : Option String
  intent : Option String
  deriving DecidableEq

/-- The three AI cache classes touched by one search request. -/
structure SearchCaches where
  understand : AiCache Understanding
  ranking : AiCache (List SearchResult)
  overview : AiCache (Option String)
  deriving DecidableEq

/-- Outcomes of the external-service calls a request may make. -/
structure SearchSvcs where
  understand : Option ParsedUnderstanding
  rank : RankSvc
  overview : OverviewSvc

/-- `understanding.intent === 'category-keyword' || understanding.intent
=== 'category-only'` (elasticsearch-init.js lines 473-474). -/
def shouldUseDetectedCategory (u : Understanding) : Bool :=
  u.intent == "category-keyword" || u.intent == "category-only"

/-- `const targetCategory = category || (shouldUseDetectedCategory ?
understanding.category : null);` (elasticsearch-init.js line 475). -/
def resolveTargetCategory (category : String) (u : Understanding) : Option String :=
  if category ≠ "" then some category
  else if shouldUseDetectedCategory u then u.category else none

/-- Everything observable about one request: the response, the caches
after the request, the per-service external call counts, and the built
index query (`none` on the "nothing to search" early return). -/
structure SearchOutcome where
  response : SearchResponse
  caches : SearchCaches
  understandCalls : Nat
  rankCalls : Nat
  overviewCalls : Nat
  esQuery : Option BoolQuery
  deriving DecidableEq

/-- The `/search` handler body.  `esHits`/`total` stand for the mapped hits
and total of the index-engine call on the built query (external
collaborator).  The route's try/catch around `understandQuery` and
`generateOverview` is dead in this model because the embedded functions
already return their documented fallbacks instead of throwing. -/
def searchHandler (query category : String) (page pageSize : Nat)
    (esHits : List SearchResult) (total : Nat)
    (svcs : SearchSvcs) (caches : SearchCaches) (now : Nat) : SearchOutcome :=
  if query = "" ∧ category = "" then
    { response := { results := [], total := 0, page := 1, pageSize := pageSize,
                    totalPages := 0, overview := none, didYouMean := none, intent := none }
      caches := caches, understandCalls := 0, rankCalls := 0, overviewCalls := 0
      esQuery := none }
  else
    let uq := understandQuery query svcs.understand caches.understand now
    let understanding := uq.1
    let targetCategory := resolveTargetCategory category understanding
    let esQuery := buildElasticsearchQuery understanding targetCategory
    let ranked :=
      if ¬ esHits.isEmpty ∧ jsTrim query ≠ "" then
        rankResults query esHits understanding.intent svcs.rank caches.ranking now
      else (esHits, caches.ranking, 0)
    let results := ranked.1.take pageSize
    let ov :=
      if page = 1 ∧ jsTrim query ≠ "" ∧ ¬ results.isEmpty then
        generateOverview query results understanding.intent svcs.overview caches.overview now
      else (none, caches.overview, 0)
    let totalPages := (total + pageSize - 1) / pageSize
    { response := { results := results, total := total, page := page, pageSize := pageSize,
                    totalPages := totalPages, overview := ov.1,
                    didYouMean := jsOrNull2 understanding.didYouMean understanding.correctedQuery,
                    intent := some understanding.intent }
      caches := { understand := uq.2.1, ranking := ranked.2.1, overview := ov.2.1 }
      understandCalls := uq.2.2, rankCalls := ranked.2.2, overviewCalls := ov.2.2
      esQuery := some esQuery }

/-! ## Concrete fixtures used by counterexamples and witnesses -/

/-- A minimal mapped hit with identity `"a"`. -/
def resA : SearchResult :=
  { id := "a", url := "u-a", title := "A", description := "", content := ""
    page_description := "", category := "", last_modified := "" }

def resB : SearchResult :=
  { id := "b", url := "u-b", title := "B", description := "", content := ""
    page_description := "", category := "", last_modified := "" }

def resC : SearchResult :=
  { id := "c", url := "u-c", title := "C", description := "", content := ""
    page_description := "", category := "", last_modified := "" }

def resD : SearchResult :=
  { id := "d", url := "u-d", title := "D", description := "", content := ""
    page_description := "", category := "", last_modified := "" }

def resE : SearchResult :=
  { id := "e", url := "u-e", title := "E", description := "", content := ""
    page_description := "", category := "", last_modified := "" }


/-- A hit whose category is `"blogs"` (for the category-matching claim). -/
def resBlog : SearchResult :=
  { id := "blog-1", url := "u-blog", title := "Blog", description := "", content := ""
    page_description := "", category := "blogs", last_modified := "" }

/-- An understanding with plain `search` intent but a non-null detected
category, as the understanding stage can produce. -/
def u2detected : Understanding :=
  { intent := "search", category := some "blogs", keywords := ["ppm"]
    correctedQuery := none, expandedTerms := [], synonyms := [], didYouMean := none }

/-- A service response normalizing to `u2detected`. -/
def p2svc : ParsedUnderstanding :=
  { intent := some "search", category := some "blogs", keywords := some ["ppm"]
    correctedQuery := none, expandedTerms := none, synonyms := none, didYouMean := none }

/-- An understanding with the single keyword `"data"`. -/
def u3terms : Understanding :=
  { intent := "search", category := none, keywords := ["data"]
    correctedQuery := none, expandedTerms := [], synonyms := [], didYouMean := none }

/-- An understanding with the single two-character keyword `"ai"`. -/
def u8terms : Understanding :=
  { intent := "search", category := none, keywords := ["ai"]
    correctedQuery := none, expandedTerms := [], synonyms := [], didYouMean := none }

/-! ## Shared cache lemma -/

theorem cacheFind_cacheSet_self {α : Type} (c : AiCache α) (k : String) (e : CacheEntry α) :
    cacheFind (cacheSet c k e) k = some e := by
  simp [cacheSet, cacheFind]

/-- Claim C1 (code bug): the ranker accepts any service-returned index list
whose length equals `n`, without checking for duplicates or range.  At query
`"spm"` with two distinct results and returned indices `[0, 0]` the length
check passes, yet the output `[resA, resA]` duplicates one item and drops the
other, so it is not a permutation of the input; with indices `[0, 5]` the
out-of-range index is silently dropped and only one item survives.  Both
defective orders are cached. -/
theorem rank_duplicate_indices_accepted :
    ([0, 0] : List Nat).length = ([resA, resB] : List SearchResult).length ∧
    (rankResults "spm" [resA, resB] "search" (RankSvc.ok [0, 0]) (emptyCache _) 0).1
      = [resA, resA] ∧
    ¬ (rankResults "spm" [resA, resB] "search" (RankSvc.ok [0, 0]) (emptyCache _) 0).1.Perm
        [resA, resB] ∧
    (rankResults "spm" [resA, resB] "search" (RankSvc.ok [0, 5]) (emptyCache _) 0).1
      = [resA] := by decide

/-- Claim C2 (code bug): for intent `search` with detected category
`"blogs"` and no caller filter, the orchestrator resolves the target
category to null - but `buildElasticsearchQuery`'s internal
`categoryFilter || category` fallback reinstates the detected category, so
the built query carries a mandatory `term: { category: "blogs" }` clause,
both in isolation and through the full `/search` handler. -/
theorem detected_category_leaks_into_query :
    resolveTargetCategory "" u2detected = none ∧
    (buildElasticsearchQuery u2detected (resolveTargetCategory "" u2detected)).must
      = [Clause.termCat "blogs"] ∧
    (searchHandler "ppm" "" 1 10 [] 0
        { understand := some p2svc, rank := RankSvc.err, overview := OverviewSvc.err }
        { understand := emptyCache _, ranking := emptyCache _, overview := emptyCache _ }
        0).esQuery
      = some (buildElasticsearchQuery u2detected (resolveTargetCategory "" u2detected)) := by
  decide

/-- Claim C5 (code bug): a successful overview call with degenerate content
caches `null` under the (query, first-3-identity) key, but the cache check
`if (cached !== null)` treats that cached `null` as a miss, so the service
is invoked again on the next request (external-call count 1, not 0); and on
a thrown service error the function returns `null` WITHOUT writing to the
cache (the cache stays empty), so the failure is retried as well. -/
theorem overview_cached_null_recomputed :
    (generateOverview "spm" [resA] "search" (OverviewSvc.ok none) (emptyCache _) 0)
      = (none, cacheOverview "spm" [resA] none 0 (emptyCache _), 1) ∧
    cacheFind (cacheOverview "spm" [resA] none 0 (emptyCache _))
        (getResultsCacheKey "spm" [resA])
      = some ⟨none, 0⟩ ∧
    (generateOverview "spm" [resA] "search" (OverviewSvc.ok none)
        (cacheOverview "spm" [resA] none 0 (emptyCache _)) 0).2.2 = 1 ∧
    (generateOverview "spm" [resA] "search" OverviewSvc.err (emptyCache _) 0)
      = (none, emptyCache _, 1) := by decide

/-- Claim C6 counterexample: a page-2 request still carries the
understanding stage's `didYouMean` in the assembled response (only
`overview` is forced to null on pages other than 1), refuting "didYouMean
= null on every page other than 1" at a concrete input. -/
theorem didyoumean_not_page_gated :
    (searchHandler "clincal data" "" 2 10 [resA] 1
        { understand := some { intent := some "search", category := none
                               keywords := some ["clincal", "data"]
                               correctedQuery := some "clinical data"
                               expandedTerms := none, synonyms := none
                               didYouMean := some "clinical data" }
          rank := RankSvc.err, overview := OverviewSvc.err }
        { understand := emptyCache _, ranking := emptyCache _, overview := emptyCache _ }
        0).response.didYouMean = some "clinical data" ∧
    (searchHandler "clincal data" "" 2 10 [resA] 1
        { understand := some { intent := some "search", category := none
                               keywords := some ["clincal", "data"]
                               correctedQuery := some "clinical data"
                               expandedTerms := none, synonyms := none
                               didYouMean := some "clinical data" }
          rank := RankSvc.err, overview := OverviewSvc.err }
        { understand := emptyCache _, ranking := emptyCache _, overview := emptyCache _ }
        0).response.overview = none := by decide

/-- Claim C8 counterexample: the url wildcard clause is emitted even for the
two-character term `"ai"`, refuting "no wildcard clause for terms shorter
than 3". -/
theorem short_term_wildcard_emitted :
    "ai".length < 3 ∧
    Clause.wildcard "url" "*ai*" 7 ∈ termClauses "ai" ∧
    Clause.wildcard "url" "*ai*" 7 ∈ (buildElasticsearchQuery u8terms none).should := by decide

/-- Claim C10 counterexample: two different four-element candidate lists for
the query `"spm"` that agree on their first three ids share the ranking
cache entry: ranking the second list returns the first list's cached order
(which even contains `resD`, an item not in the second list) with zero
external calls. -/
theorem ranking_cache_shared_across_lists :
    (rankResults "spm" [resA, resB, resC, resE] "search" RankSvc.err
        (rankResults "spm" [resA, resB, resC, resD] "search" (RankSvc.ok [3, 2, 1, 0])
          (emptyCache _) 0).2.1 0).1
      = [resD, resC, resB, resA] ∧
    ([resA, resB, resC, resD] : List SearchResult) ≠ [resA, resB, resC, resE] ∧
    resD ∉ ([resA, resB, resC, resE] : List SearchResult) ∧
    (rankResults "spm" [resA, resB, resC, resE] "search" RankSvc.err
        (rankResults "spm" [resA, resB, resC, resD] "search" (RankSvc.ok [3, 2, 1, 0])
          (emptyCache _) 0).2.1 0).2.2 = 0 := by decide

/-- Claim C4: for any query, when the cache has no entry for the query's
key and the first call's external service returns a (possibly degenerate)
record `p`, two `understandQuery` calls within the TTL window issue at most
one external call in total, the second returns exactly the first's output,
and (for a non-empty query) the normalized result is in the cache the
moment the first call returns - even when `p` is the all-absent record. -/
theorem understand_cache_idempotent (q : String) (p : ParsedUnderstanding)
    (svc2 : Option ParsedUnderstanding) (c : AiCache Understanding) (now nowLater : Nat)
    (hmiss : cacheFind c (getQueryCacheKey q) = none)
    (httl : nowLater - now < UNDERSTAND_QUERY_TTL) :
    (understandQuery q svc2 (understandQuery q (some p) c now).2.1 nowLater).1
      = (understandQuery q (some p) c now).1 ∧
    (understandQuery q (some p) c now).2.2
      + (understandQuery q svc2 (understandQuery q (some p) c now).2.1 nowLater).2.2 ≤ 1 ∧
    (jsTrim q ≠ "" →
      cacheFind (understandQuery q (some p) c now).2.1 (getQueryCacheKey q)
        = some ⟨normalizeUnderstanding p, now⟩) := by
  by_cases hq : jsTrim q = ""
  · simp [understandQuery, hq]
  · have h1 : understandQuery q (some p) c now
        = (normalizeUnderstanding p,
           cacheUnderstanding q (normalizeUnderstanding p) now c, 1) := by
      simp [understandQuery, hq, getCachedUnderstanding, hmiss]
    have h2 : getCachedUnderstanding q
        (cacheUnderstanding q (normalizeUnderstanding p) now c) nowLater
        = (some (normalizeUnderstanding p),
           cacheUnderstanding q (normalizeUnderstanding p) now c) := by
      simp [getCachedUnderstanding, cacheUnderstanding, cacheFind_cacheSet_self,
        isCacheValid, httl]
    rw [h1]
    refine ⟨?_, ?_, ?_⟩
    · simp [understandQuery, hq, h2]
    · simp [understandQuery, hq, h2]
    · intro _
      exact cacheFind_cacheSet_self c (getQueryCacheKey q) ⟨normalizeUnderstanding p, now⟩

/-- Claim C4 witness: query `"spm"`, an all-absent (degenerate) service
record, an empty cache, times 0 and 1000. -/
theorem understand_cache_idempotent_witness :
    (understandQuery "spm" none
        (understandQuery "spm"
          (some { intent := none, category := none, keywords := none, correctedQuery := none
                  expandedTerms := none, synonyms := none, didYouMean := none })
          (emptyCache _) 0).2.1 1000).1
      = (understandQuery "spm"
          (some { intent := none, category := none, keywords := none, correctedQuery := none
                  expandedTerms := none, synonyms := none, didYouMean := none })
          (emptyCache _) 0).1 ∧
    (understandQuery "spm"
        (some { intent := none, category := none, keywords := none, correctedQuery := none
                expandedTerms := none, synonyms := none, didYouMean := none })
        (emptyCache _) 0).2.2
      + (understandQuery "spm" none
          (understandQuery "spm"
            (some { intent := none, category := none, keywords := none, correctedQuery := none
                    expandedTerms := none, synonyms := none, didYouMean := none })
            (emptyCache _) 0).2.1 1000).2.2 ≤ 1 ∧
    (jsTrim "spm" ≠ "" →
      cacheFind (understandQuery "spm"
          (some { intent := none, category := none, keywords := none, correctedQuery := none
                  expandedTerms := none, synonyms := none, didYouMean := none })
          (emptyCache _) 0).2.1 (getQueryCacheKey "spm")
        = some ⟨normalizeUnderstanding
            { intent := none, category := none, keywords := none, correctedQuery := none
              expandedTerms := none, synonyms := none, didYouMean := none }, 0⟩) :=
  understand_cache_idempotent "spm"
    { intent := none, category := none, keywords := none, correctedQuery := none
      expandedTerms := none, synonyms := none, didYouMean := none }
    none (emptyCache _) 0 1000 (by decide) (by decide)

/-- A cache holding an entry for an unrelated query (key `"other"`). -/
def cacheOther : AiCache Understanding :=
  [("other", ⟨emptyUnderstanding, 0⟩)]

/-- Claim C9: on external-service failure for a non-empty query whose key
is not in the cache, `understandQuery` returns exactly the documented
fallback record - keywords are the whitespace-split non-empty words of the
query, everything else null/empty - makes exactly one (failed) external
call, and leaves the cache unchanged (the fallback is NOT cached).  The
cache may hold arbitrary entries for other queries. -/
theorem understand_failure_fallback (q : String) (c : AiCache Understanding) (now : Nat)
    (hq : jsTrim q ≠ "")
    (hmiss : cacheFind c (getQueryCacheKey q) = none) :
    understandQuery q none c now
      = ({ intent := "search", category := none, keywords := splitWs q
           correctedQuery := none, expandedTerms := [], synonyms := []
           didYouMean := none }, c, 1) := by
  simp [understandQuery, hq, getCachedUnderstanding, hmiss, fallbackUnderstanding]

/-- Claim C9 witness: query `"clinical data"` against a cache holding an
entry for a different query; the fallback's keywords are
`["clinical", "data"]` and the cache is returned unchanged. -/
theorem understand_failure_fallback_witness :
    understandQuery "clinical data" none cacheOther 5
      = ({ intent := "search", category := none, keywords := ["clinical", "data"]
           correctedQuery := none, expandedTerms := [], synonyms := []
           didYouMean := none }, cacheOther, 1) := by
  have h := understand_failure_fallback "clinical data" cacheOther 5 (by decide) (by decide)
  rw [show splitWs "clinical data" = ["clinical", "data"] from by decide] at h
  exact h

/-- If every term of a list is blank, the per-term clause fold is empty. -/
theorem foldr_clauses_nil (l : List String) (h : ∀ t ∈ l, jsTrim t = "") :
    l.foldr (fun t acc => (if jsTrim t ≠ "" then termClauses t else []) ++ acc) []
      = ([] : List Clause) := by
  induction l with
  | nil => rfl
  | cons x xs ih =>
    have hx : jsTrim x = "" := h x (List.mem_cons_self x xs)
    have hxs := ih (fun t ht => h t (List.mem_cons_of_mem x ht))
    show (if jsTrim x ≠ "" then termClauses x else [])
        ++ xs.foldr (fun t acc => (if jsTrim t ≠ "" then termClauses t else []) ++ acc) [] = []
    rw [if_neg (by simp [hx]), List.nil_append, hxs]

/-- A clause of a non-blank member term's block is in the clause fold. -/
theorem foldr_clauses_mem (l : List String) (t : String) (cl : Clause)
    (hmem : t ∈ l) (hblank : jsTrim t ≠ "") (hcl : cl ∈ termClauses t) :
    cl ∈ l.foldr (fun s acc => (if jsTrim s ≠ "" then termClauses s else []) ++ acc) [] := by
  induction l with
  | nil => cases hmem
  | cons x xs ih =>
    rcases List.mem_cons.mp hmem with hx | hxs
    · subst hx
      show cl ∈ (if jsTrim t ≠ "" then termClauses t else [])
        ++ xs.foldr (fun s acc => (if jsTrim s ≠ "" then termClauses s else []) ++ acc) []
      rw [if_pos hblank]
      exact List.mem_append_left _ hcl
    · show cl ∈ (if jsTrim x ≠ "" then termClauses x else [])
        ++ xs.foldr (fun s acc => (if jsTrim s ≠ "" then termClauses s else []) ++ acc) []
      exact List.mem_append_right _ (ih hxs)

theorem shouldClausesOf_eq_nil (u : Understanding)
    (h : ∀ t ∈ searchTermsOf u, jsTrim t = "") :
    shouldClausesOf u = [] :=
  foldr_clauses_nil (searchTermsOf u) h

theorem mem_shouldClausesOf {u : Understanding} {t : String} {cl : Clause}
    (hmem : t ∈ searchTermsOf u) (hblank : jsTrim t ≠ "")
    (hcl : cl ∈ termClauses t) :
    cl ∈ shouldClausesOf u :=
  foldr_clauses_mem (searchTermsOf u) t cl hmem hblank hcl

/-- Claim C7: when every search term of the understanding is blank (in
particular for the empty-query understanding, whose term set is empty), the
builder emits `should = [match_all]` with `minimum_should_match = 0`, and a
non-blank caller category filter contributes the sole mandatory clause, so
under the boolean index semantics a document matches the built query exactly
when its category equals the filter; moreover `understandQuery` on the empty
query returns its fixed record without touching the cache or the external
service, and in general `minimum_should_match` is 1 whenever any should-
clause was produced (and 0 only in the match-all case). -/
theorem empty_query_category_matchall (u : Understanding) (cf : String)
    (textSem : Clause → SearchResult → Bool) (d : SearchResult)
    (svc : Option ParsedUnderstanding) (c : AiCache Understanding) (now : Nat)
    (hterms : ∀ t ∈ searchTermsOf u, jsTrim t = "")
    (hcf : jsTrim cf ≠ "") :
    (buildElasticsearchQuery u (some cf)).should = [Clause.matchAll] ∧
    (buildElasticsearchQuery u (some cf)).minimumShouldMatch = 0 ∧
    (buildElasticsearchQuery u (some cf)).must = [Clause.termCat cf] ∧
    (boolQueryMatches textSem (buildElasticsearchQuery u (some cf)) d ↔ d.category = cf) ∧
    understandQuery "" svc c now = (emptyUnderstanding, c, 0) ∧
    (∀ u2 cf2, (buildElasticsearchQuery u2 cf2).minimumShouldMatch = 1 ∨
      ((buildElasticsearchQuery u2 cf2).minimumShouldMatch = 0 ∧
       (buildElasticsearchQuery u2 cf2).should = [Clause.matchAll])) := by
  have hcf0 : cf ≠ "" := by
    intro h; rw [h] at hcf; exact hcf rfl
  have hsc : shouldClausesOf u = [] := shouldClausesOf_eq_nil u hterms
  have hq : buildElasticsearchQuery u (some cf)
      = { must := [Clause.termCat cf], should := [Clause.matchAll]
          minimumShouldMatch := 0 } := by
    simp [buildElasticsearchQuery, hsc, hcf0, hcf]
  refine ⟨by rw [hq], by rw [hq], by rw [hq], ?_, rfl, ?_⟩
  · rw [hq]
    constructor
    · intro hm
      have := hm.1 (Clause.termCat cf) (by simp)
      simpa [clauseMatches] using this
    · intro hcat
      refine ⟨?_, by simp⟩
      intro cl hcl
      simp only [List.mem_singleton] at hcl
      subst hcl
      simp [clauseMatches, hcat]
  · intro u2 cf2
    by_cases h : (shouldClausesOf u2).length > 0
    · left; simp [buildElasticsearchQuery, h]
    · right
      constructor
      · simp [buildElasticsearchQuery, h]
      · simp [buildElasticsearchQuery, h]

/-- Claim C7 witness: the empty-query understanding with category filter
`"blogs"`, an all-false text-clause oracle, and a document of category
`"blogs"`. -/
theorem empty_query_category_matchall_witness :
    (buildElasticsearchQuery emptyUnderstanding (some "blogs")).should = [Clause.matchAll] ∧
    (buildElasticsearchQuery emptyUnderstanding (some "blogs")).minimumShouldMatch = 0 ∧
    (buildElasticsearchQuery emptyUnderstanding (some "blogs")).must
      = [Clause.termCat "blogs"] ∧
    (boolQueryMatches (fun _ _ => false)
        (buildElasticsearchQuery emptyUnderstanding (some "blogs")) resBlog
      ↔ resBlog.category = "blogs") ∧
    understandQuery "" none (emptyCache _) 0 = (emptyUnderstanding, emptyCache _, 0) := by
  have h := empty_query_category_matchall emptyUnderstanding "blogs" (fun _ _ => false)
    resBlog none (emptyCache _) 0 (by decide) (by decide)
  exact ⟨h.1, h.2.1, h.2.2.1, h.2.2.2.1, h.2.2.2.2.1⟩

/-- Claim C3 counterexample: for the concrete understanding with keyword
`"data"`, the claimed field ordering fails at the exact-phrase tier
(`page_description` has boost 7, `content` has boost 8, so
page_description > content is false), and the claimed tier ordering
prefix > wildcard fails (the `prefix` clause has boost 3 while the
wildcard clause has boost 7). -/
theorem boost_order_counterexample :
    ¬ ((∀ bpd bc : Nat,
          Clause.matchPhrase "page_description" "data" bpd
              ∈ (buildElasticsearchQuery u3terms none).should →
          Clause.matchPhrase "content" "data" bc
              ∈ (buildElasticsearchQuery u3terms none).should →
          bc < bpd) ∧
       (∀ bp bw : Nat, ∀ vp vw : String,
          Clause.pfx "title" vp bp ∈ (buildElasticsearchQuery u3terms none).should →
          Clause.wildcard "url" vw bw ∈ (buildElasticsearchQuery u3terms none).should →
          bw < bp)) := by
  intro h
  exact absurd (h.1 7 8 (by decide) (by decide)) (by decide)

/-- Claim C3 amended: for any non-blank search term `t` of length at least 3
belonging to the understanding's term set, the built query's should-clauses
contain, for `t`: exact-phrase clauses with boosts title 10 > content 8 >
page_description 7 > description 6; operator-and match clauses with boosts
title 5 > page_description 4 > content 3 > description 2; title prefix
clauses with boosts 4 (match_phrase_prefix) and 3 (prefix); and a url
wildcard clause with boost 7.  So exact phrase dominates full match, and
full match dominates the prefix tier, but the wildcard boost (7) sits
between the phrase-tier boosts rather than below the prefix tier. -/
theorem builder_clause_boosts (u : Understanding) (cf : Option String) (t : String)
    (hmem : t ∈ searchTermsOf u) (hblank : jsTrim t ≠ "") (h3 : 3 ≤ t.length) :
    Clause.matchPhrase "title" t 10 ∈ (buildElasticsearchQuery u cf).should ∧
    Clause.matchPhrase "content" t 8 ∈ (buildElasticsearchQuery u cf).should ∧
    Clause.matchPhrase "page_description" t 7 ∈ (buildElasticsearchQuery u cf).should ∧
    Clause.matchPhrase "description" t 6 ∈ (buildElasticsearchQuery u cf).should ∧
    Clause.matchAnd "title" t 5 ∈ (buildElasticsearchQuery u cf).should ∧
    Clause.matchAnd "page_description" t 4 ∈ (buildElasticsearchQuery u cf).should ∧
    Clause.matchAnd "content" t 3 ∈ (buildElasticsearchQuery u cf).should ∧
    Clause.matchAnd "description" t 2 ∈ (buildElasticsearchQuery u cf).should ∧
    Clause.phrasePfx "title" t 4 50 ∈ (buildElasticsearchQuery u cf).should ∧
    Clause.pfx "title" (jsToLower t) 3 ∈ (buildElasticsearchQuery u cf).should ∧
    Clause.wildcard "url" ("*" ++ starify t ++ "*") 7 ∈ (buildElasticsearchQuery u cf).should := by
  have hsub : ∀ cl ∈ termClauses t, cl ∈ (buildElasticsearchQuery u cf).should := by
    intro cl hcl
    have hm : cl ∈ shouldClausesOf u := mem_shouldClausesOf hmem hblank hcl
    have hlen : (shouldClausesOf u).length > 0 :=
      List.length_pos.mpr (List.ne_nil_of_mem hm)
    simpa [buildElasticsearchQuery, hlen] using hm
  refine ⟨hsub _ (by simp [termClauses, h3]), hsub _ (by simp [termClauses, h3]),
    hsub _ (by simp [termClauses, h3]), hsub _ (by simp [termClauses, h3]),
    hsub _ (by simp [termClauses, h3]), hsub _ (by simp [termClauses, h3]),
    hsub _ (by simp [termClauses, h3]), hsub _ (by simp [termClauses, h3]),
    hsub _ (by simp [termClauses, h3]), hsub _ (by simp [termClauses, h3]),
    hsub _ (by simp [termClauses, h3])⟩

/-- Claim C3 amended witness: the term `"data"` in `u3terms`. -/
theorem builder_clause_boosts_witness :
    Clause.matchPhrase "title" "data" 10 ∈ (buildElasticsearchQuery u3terms none).should ∧
    Clause.matchPhrase "content" "data" 8 ∈ (buildElasticsearchQuery u3terms none).should ∧
    Clause.matchPhrase "page_description" "data" 7 ∈ (buildElasticsearchQuery u3terms none).should ∧
    Clause.matchPhrase "description" "data" 6 ∈ (buildElasticsearchQuery u3terms none).should ∧
    Clause.matchAnd "title" "data" 5 ∈ (buildElasticsearchQuery u3terms none).should ∧
    Clause.matchAnd "page_description" "data" 4 ∈ (buildElasticsearchQuery u3terms none).should ∧
    Clause.matchAnd "content" "data" 3 ∈ (buildElasticsearchQuery u3terms none).should ∧
    Clause.matchAnd "description" "data" 2 ∈ (buildElasticsearchQuery u3terms none).should ∧
    Clause.phrasePfx "title" "data" 4 50 ∈ (buildElasticsearchQuery u3terms none).should ∧
    Clause.pfx "title" (jsToLower "data") 3 ∈ (buildElasticsearchQuery u3terms none).should ∧
    Clause.wildcard "url" ("*" ++ starify "data" ++ "*") 7
      ∈ (buildElasticsearchQuery u3terms none).should :=
  builder_clause_boosts u3terms none "data" (by decide) (by decide) (by decide)

/-- Claim C8 amended: the two title prefix clauses (`match_phrase_prefix`
and `prefix`) are emitted exactly for terms of length at least 3, but the
url wildcard clause is emitted for every term regardless of length. -/
theorem pfx_wildcard_emission (t : String) :
    (t.length < 3 →
      (∀ f q b m, Clause.phrasePfx f q b m ∉ termClauses t) ∧
      (∀ f v b, Clause.pfx f v b ∉ termClauses t)) ∧
    (3 ≤ t.length →
      Clause.phrasePfx "title" t 4 50 ∈ termClauses t ∧
      Clause.pfx "title" (jsToLower t) 3 ∈ termClauses t) ∧
    Clause.wildcard "url" ("*" ++ starify t ++ "*") 7 ∈ termClauses t := by
  refine ⟨?_, ?_, ?_⟩
  · intro hlen
    have hno : ¬ 3 ≤ t.length := Nat.not_le.mpr hlen
    constructor
    · intro f q b m hm
      simp [termClauses, hno] at hm
    · intro f v b hm
      simp [termClauses, hno] at hm
  · intro h3
    exact ⟨by simp [termClauses, h3], by simp [termClauses, h3]⟩
  · by_cases h3 : 3 ≤ t.length
    · simp [termClauses, h3]
    · simp [termClauses, h3]

/-- Claim C8 amended witness: no prefix clause for the two-character term
`"ai"`; prefix clauses present for `"data"`; wildcard present for `"ai"`. -/
theorem pfx_wildcard_emission_witness :
    (∀ f q b m, Clause.phrasePfx f q b m ∉ termClauses "ai") ∧
    Clause.phrasePfx "title" "data" 4 50 ∈ termClauses "data" ∧
    Clause.wildcard "url" ("*" ++ starify "ai" ++ "*") 7 ∈ termClauses "ai" :=
  ⟨((pfx_wildcard_emission "ai").1 (by decide)).1,
   ((pfx_wildcard_emission "data").2.1 (by decide)).1,
   (pfx_wildcard_emission "ai").2.2⟩

/-- Claim C10 amended: the ranking cache key depends on the query and the
identities (`id`, else `url`) of the FIRST THREE results only: any two
candidate lists for the same query whose first-three identity lists
coincide produce the same key, and a ranking cached under one list is
returned for the other within the TTL window - full-list sensitivity does
not hold. -/
theorem ranking_key_first3 (q : String) (A B data : List SearchResult)
    (c : AiCache (List SearchResult)) (now nowLater : Nat)
    (hids : (A.take 3).map resultIdent = (B.take 3).map resultIdent)
    (httl : nowLater - now < RANKING_TTL) :
    getResultsCacheKey q A = getResultsCacheKey q B ∧
    (getCachedRanking q B (cacheRanking q A data now c) nowLater).1 = some data := by
  have hkey : getResultsCacheKey q A = getResultsCacheKey q B := by
    unfold getResultsCacheKey
    rw [hids]
  refine ⟨hkey, ?_⟩
  unfold getCachedRanking cacheRanking
  rw [← hkey]
  simp [cacheFind_cacheSet_self, isCacheValid, httl]

/-- Claim C10 amended witness: the two four-element lists agreeing on ids
`a`, `b`, `c` but differing in the fourth element. -/
theorem ranking_key_first3_witness :
    getResultsCacheKey "spm" [resA, resB, resC, resD]
      = getResultsCacheKey "spm" [resA, resB, resC, resE] ∧
    (getCachedRanking "spm" [resA, resB, resC, resE]
        (cacheRanking "spm" [resA, resB, resC, resD] [resD] 0 (emptyCache _)) 1).1
      = some [resD] :=
  ranking_key_first3 "spm" [resA, resB, resC, resD] [resA, resB, resC, resE] [resD]
    (emptyCache _) 0 1 (by decide) (by decide)

/-- Claim C6 amended: for every request with page other than 1 the
assembled response's `overview` is null, but `didYouMean` is NOT page-
gated: on the non-early-return path it always equals the understanding's
`didYouMean || correctedQuery || null`, whatever the page. -/
theorem page_gating_overview_only (query category : String) (page pageSize : Nat)
    (esHits : List SearchResult) (total : Nat) (svcs : SearchSvcs)
    (caches : SearchCaches) (now : Nat) (hpage : page ≠ 1) :
    (searchHandler query category page pageSize esHits total svcs caches now).response.overview
      = none ∧
    (¬ (query = "" ∧ category = "") →
      (searchHandler query category page pageSize esHits total svcs caches now).response.didYouMean
        = jsOrNull2 (understandQuery query svcs.understand caches.understand now).1.didYouMean
            (understandQuery query svcs.understand caches.understand now).1.correctedQuery) := by
  by_cases h : query = "" ∧ category = ""
  · constructor
    · simp [searchHandler, h]
    · intro hcon
      exact absurd h hcon
  · have hov : ¬ (page = 1 ∧ jsTrim query ≠ ""
        ∧ ¬ ((if ¬ esHits.isEmpty ∧ jsTrim query ≠ "" then
                rankResults query esHits
                  (understandQuery query svcs.understand caches.understand now).1.intent
                  svcs.rank caches.ranking now
              else (esHits, caches.ranking, 0)).1.take pageSize).isEmpty) :=
      fun hc => hpage hc.1
    constructor
    · simp only [searchHandler, if_neg h]
      rw [if_neg hov]
    · intro _
      simp only [searchHandler, if_neg h]

/-- The service/cache fixtures used by the page-gating witness. -/
def svcsNoop : SearchSvcs :=
  { understand := none, rank := RankSvc.err, overview := OverviewSvc.err }

def cachesEmpty : SearchCaches :=
  { understand := emptyCache _, ranking := emptyCache _, overview := emptyCache _ }

/-- Claim C6 amended witness: page 2 of query `"spm"`. -/
theorem page_gating_overview_only_witness :
    (searchHandler "spm" "" 2 10 [resA] 1 svcsNoop cachesEmpty 0).response.overview = none ∧
    (searchHandler "spm" "" 2 10 [resA] 1 svcsNoop cachesEmpty 0).response.didYouMean
      = jsOrNull2 (understandQuery "spm" svcsNoop.understand cachesEmpty.understand 0).1.didYouMean
          (understandQuery "spm" svcsNoop.understand cachesEmpty.understand 0).1.correctedQuery := by
  have h := page_gating_overview_only "spm" "" 2 10 [resA] 1 svcsNoop cachesEmpty 0 (by decide)
  exact ⟨h.1, h.2 (by decide)⟩
